import Mathlib

/-!
Shallow embedding of the sandboxed code-execution subsystem of
`backend/sandbox.py` (class `CodeSandbox`), together with proofs about the
claims of its specification.

Modelling conventions:

* A Python dict returned by a driver is modelled by the record `Outcome`.
  A key that is absent from the dict is modelled by `none` in an `Option`
  field; the `"line"` key, whose value is itself optional
  (`_extract_error_line` may return Python `None`), is an
  `Option (Option Nat)` with the outer `none` meaning "key absent".
* The behaviour of the outside world during one driver call (the result of
  `subprocess.run`, of `client.containers.run` / `container.wait`) is an
  explicit input to the driver function (`RunResult`, `DockerRun`); the
  driver is then a pure function of that behaviour.  Creation of the
  temporary file is assumed to succeed (its failure would propagate to the
  caller of `execute_code`, a path the drivers do not handle specially).
* The lifecycle of the per-call temporary file is tracked by the two
  booleans of `DriverResult`: `fileCreated` (the driver reached the point
  where `tempfile.NamedTemporaryFile` produced the file) and `fileDeleted`
  (`os.unlink(temp_file)` was executed before returning).
* Machine integers play no role; exit status codes are modelled as `Int`,
  parsed line numbers as `Nat` (Python's `int` is unbounded).
-/

/-- Character class of Python `str.strip()`: ASCII whitespace characters
(space, tab, newline, carriage return, vertical tab, form feed). -/
def pyIsSpace (c : Char) : Bool :=
  c = ' ' || c = '\t' || c = '\n' || c = '\r' || c = '\x0b' || c = '\x0c'

/-- Embedding of Python `s.strip()` on the character list of `s`: drop
whitespace from the front, then from the back. -/
def stripList (t : List Char) : List Char :=
  ((t.dropWhile pyIsSpace).reverse.dropWhile pyIsSpace).reverse

/-- Embedding of Python `s.split('\n')` on character lists: splitting the
empty string yields `[[]]`, exactly as `''.split('\n') == ['']`. -/
def splitNl : List Char → List (List Char)
  | [] => [[]]
  | c :: cs =>
    if c = '\n' then [] :: splitNl cs
    else
      match splitNl cs with
      | [] => [[c]]
      | l :: ls => (c :: l) :: ls

/-- Embedding of `CodeSandbox._parse_python_error` (sandbox.py lines
255-262): `if not logs: return "Unknown error"`, then
`lines = logs.strip().split('\n')`, `return lines[-1]` when `lines` is
nonempty (it always is), else `"Unknown error"`. -/
def parse_python_error (logs : String) : String :=
  if logs = "" then "Unknown error"
  else
    match (splitNl (stripList logs.data)).getLast? with
    | some l => String.mk l
    | none => "Unknown error"

/-- A blank line: every character is whitespace (true of the empty line). -/
def isBlank (l : List Char) : Bool := l.all pyIsSpace

/-- Formalisation of the specification phrase "the last non-blank line of
the captured error text": among the `'\n'`-separated lines of the input,
the last one containing a non-whitespace character, if any. -/
def lastNonBlankLine (s : String) : Option String :=
  (((splitNl s.data).filter (fun l => !isBlank l)).getLast?).map String.mk

/-- Numeric value of a digit string, as computed by Python `int()` on the
matched group. -/
def digitsToNat (ds : List Char) : Nat :=
  ds.foldl (fun n c => n * 10 + (c.toNat - '0'.toNat)) 0

/-- One attempted match of the regular expression `line (\d+)` anchored at
the head of the given character list: the five literal characters
`l`, `i`, `n`, `e`, `' '` (case-sensitive), followed by a maximal nonempty
run of digits, whose value is returned. -/
def matchLineAt : List Char → Option Nat
  | 'l' :: 'i' :: 'n' :: 'e' :: ' ' :: rest =>
    match rest.takeWhile Char.isDigit with
    | [] => none
    | d :: ds => some (digitsToNat (d :: ds))
  | _ => none

/-- Leftmost-match scan of `re.search`: try `matchLineAt` at every
position from the left, returning the first success. -/
def searchLine : List Char → Option Nat
  | [] => none
  | c :: cs =>
    match matchLineAt (c :: cs) with
    | some n => some n
    | none => searchLine cs

/-- Embedding of `CodeSandbox._extract_error_line` (sandbox.py lines
264-272): `if not logs: return None`, then
`re.search(r'line (\d+)', logs)`, returning `int(match.group(1))` of the
first match or `None`. -/
def extract_error_line (logs : String) : Option Nat :=
  if logs = "" then none else searchLine logs.data

/-- Decidable substring test: does `pat` occur contiguously in `s`? -/
def containsPattern (s pat : List Char) : Bool :=
  (List.range (s.length + 1)).any (fun i => pat.isPrefixOf (s.drop i))

/-- The `"mode"` tag of a returned dict: `"docker"` or `"subprocess"`. -/
inductive Mode where
  | subprocess
  | docker
deriving DecidableEq, Repr

/-- The dict returned by `execute_code` and its drivers.  `none` in
`executed_successfully` / `mode` / `line` means the key is absent from the
dict; `error = none` means the key is present with value `None`. -/
structure Outcome where
  output : String
  error : Option String
  executed_successfully : Option Bool
  mode : Option Mode
  line : Option (Option Nat)
deriving DecidableEq, Repr

/-- Result of one driver call: the returned dict plus the state of the
per-call temporary file at the moment of return. -/
structure DriverResult where
  outcome : Outcome
  fileCreated : Bool
  fileDeleted : Bool
deriving DecidableEq, Repr

/-- Behaviour of the `subprocess.run(...)` call inside a subprocess-mode
driver: the child completed (with exit status, stdout, stderr), the
wall-clock timeout expired (`subprocess.TimeoutExpired`), the runtime
binary was absent (`FileNotFoundError`, carrying `str(e)`), or some other
exception was raised (carrying `str(e)`). -/
inductive RunResult where
  | completed (returncode : Int) (stdout stderr : String)
  | timeout
  | fileNotFound (msg : String)
  | raised (msg : String)
deriving DecidableEq, Repr

/-- Behaviour of `container.wait` / `container.logs` after the container
was started: finished with a status code and combined logs, timed out, or
the container backend failed mid-execution (daemon error, carrying the
exception text).  The source catches the last two with one bare
`except:`. -/
inductive DockerWait where
  | finished (statusCode : Int) (logs : String)
  | timedOut
  | backendFailure (msg : String)
deriving DecidableEq, Repr

/-- Behaviour of a container-mode driver call: `client.containers.run`
raised (carrying `str(e)`), or the container started and then behaved as
described by the `DockerWait`. -/
inductive DockerRun where
  | runFailed (msg : String)
  | started (w : DockerWait)
deriving DecidableEq, Repr

/-- Embedding of `CodeSandbox._execute_python_subprocess` (sandbox.py
lines 53-101).  On completion `os.unlink` runs before the return-code
branch; the error text is `result.stderr or
self._parse_python_error(result.stderr)` (Python `or`: the full stderr
when nonempty, else the parse of the empty string); the `"line"` key is
present only on the nonzero-status branch.  `TimeoutExpired` unlinks and
returns the `(5s limit)` message.  `FileNotFoundError` has no dedicated
handler and falls to the outer `except Exception`, which returns
`"Execution error: ..."` without unlinking. -/
def execute_python_subprocess (r : RunResult) : DriverResult :=
  match r with
  | .completed rc out err =>
    ⟨if rc = 0 then
        ⟨out, none, some true, some .subprocess, none⟩
      else
        ⟨out, some (if err ≠ "" then err else parse_python_error err),
          some false, some .subprocess, some (extract_error_line err)⟩,
      true, true⟩
  | .timeout =>
    ⟨⟨"", some "Execution timeout (5s limit)", some false, some .subprocess, none⟩,
      true, true⟩
  | .fileNotFound msg =>
    ⟨⟨"", some ("Execution error: " ++ msg), some false, some .subprocess, none⟩,
      true, false⟩
  | .raised msg =>
    ⟨⟨"", some ("Execution error: " ++ msg), some false, some .subprocess, none⟩,
      true, false⟩

/-- Embedding of `CodeSandbox._execute_javascript_subprocess` (sandbox.py
lines 103-148).  On completion the single dict sets
`error = stderr if returncode != 0 else None` (the raw stderr, even when
empty) and `executed_successfully = (returncode == 0)`, with no `"line"`
key.  `TimeoutExpired` unlinks and returns the plain
`"Execution timeout"` message.  `FileNotFoundError` returns
`"Node.js not installed"` WITHOUT unlinking; the outer `except Exception`
likewise returns without unlinking. -/
def execute_javascript_subprocess (r : RunResult) : DriverResult :=
  match r with
  | .completed rc out err =>
    ⟨⟨out, if rc ≠ 0 then some err else none, some (decide (rc = 0)),
        some .subprocess, none⟩,
      true, true⟩
  | .timeout =>
    ⟨⟨"", some "Execution timeout", some false, some .subprocess, none⟩,
      true, true⟩
  | .fileNotFound _ =>
    ⟨⟨"", some "Node.js not installed", some false, some .subprocess, none⟩,
      true, false⟩
  | .raised msg =>
    ⟨⟨"", some ("Execution error: " ++ msg), some false, some .subprocess, none⟩,
      true, false⟩

/-- Embedding of `CodeSandbox._execute_python_docker` (sandbox.py lines
150-205).  When `wait`/`logs` succeed, `os.unlink` runs before the
status-code branch; the error is `_parse_python_error(logs)` and the
`"line"` key is `_extract_error_line(logs)`.  Any exception from
`wait`/`logs` — timeout or backend failure alike — is swallowed by a bare
`except:` that stops the container and returns the timeout message, never
unlinking.  A failure of `containers.run` itself falls to the outer
handler and is tagged `"Docker error: ..."`, also without unlinking. -/
def execute_python_docker (r : DockerRun) : DriverResult :=
  match r with
  | .started (.finished sc logs) =>
    ⟨if sc = 0 then
        ⟨logs, none, some true, some .docker, none⟩
      else
        ⟨logs, some (parse_python_error logs), some false, some .docker,
          some (extract_error_line logs)⟩,
      true, true⟩
  | .started .timedOut =>
    ⟨⟨"", some "Execution timeout (5s limit)", some false, some .docker, none⟩,
      true, false⟩
  | .started (.backendFailure _) =>
    ⟨⟨"", some "Execution timeout (5s limit)", some false, some .docker, none⟩,
      true, false⟩
  | .runFailed msg =>
    ⟨⟨"", some ("Docker error: " ++ msg), some false, some .docker, none⟩,
      true, false⟩

/-- Embedding of `CodeSandbox._execute_javascript_docker` (sandbox.py
lines 207-253).  Same structure as the Python container driver, but the
completion dict sets `error = logs if StatusCode != 0 else None` with no
`"line"` key, and the timeout message is the plain
`"Execution timeout"`. -/
def execute_javascript_docker (r : DockerRun) : DriverResult :=
  match r with
  | .started (.finished sc logs) =>
    ⟨⟨logs, if sc ≠ 0 then some logs else none, some (decide (sc = 0)),
        some .docker, none⟩,
      true, true⟩
  | .started .timedOut =>
    ⟨⟨"", some "Execution timeout", some false, some .docker, none⟩,
      true, false⟩
  | .started (.backendFailure _) =>
    ⟨⟨"", some "Execution timeout", some false, some .docker, none⟩,
      true, false⟩
  | .runFailed msg =>
    ⟨⟨"", some ("Docker error: " ++ msg), some false, some .docker, none⟩,
      true, false⟩

/-- The environment of one `execute_code` call: the isolation mode fixed
at startup (`self.docker_available`) and the behaviour the outside world
would exhibit on whichever driver is dispatched.  `escape` models an
exception escaping the dispatched driver to the top-level
`except Exception` of `execute_code` (line 50), carrying `str(e)`; since
the source gives no guarantee about the temporary file on that path, its
state there is a further environment parameter. -/
structure SandboxEnv where
  docker_available : Bool
  pySub : RunResult
  jsSub : RunResult
  pyDock : DockerRun
  jsDock : DockerRun
  escape : Option String
  escapeFileCreated : Bool
  escapeFileDeleted : Bool
deriving DecidableEq, Repr

/-- Embedding of `CodeSandbox.execute_code` (sandbox.py lines 35-51):
dispatch on the language string, then on `self.docker_available`; an
unsupported language returns the two-key dict
`{"error": "Unsupported language", "output": ""}` before any file or
process is touched; an exception escaping a driver is caught at the top
and returns the two-key dict `{"error": str(e), "output": ""}`. -/
def execute_code (env : SandboxEnv) (language : String) : DriverResult :=
  if language = "python" then
    match env.escape with
    | some msg =>
      ⟨⟨"", some msg, none, none, none⟩, env.escapeFileCreated, env.escapeFileDeleted⟩
    | none =>
      if env.docker_available then execute_python_docker env.pyDock
      else execute_python_subprocess env.pySub
  else if language = "javascript" then
    match env.escape with
    | some msg =>
      ⟨⟨"", some msg, none, none, none⟩, env.escapeFileCreated, env.escapeFileDeleted⟩
    | none =>
      if env.docker_available then execute_javascript_docker env.jsDock
      else execute_javascript_subprocess env.jsSub
  else
    ⟨⟨"", some "Unsupported language", none, none, none⟩, false, false⟩

/-- A baseline environment: subprocess mode, clean successful runs, no
escaping exception. -/
def env0 : SandboxEnv where
  docker_available := false
  pySub := .completed 0 "" ""
  jsSub := .completed 0 "" ""
  pyDock := .started (.finished 0 "")
  jsDock := .started (.finished 0 "")
  escape := none
  escapeFileCreated := false
  escapeFileDeleted := false

/-- Embedding of `CodeSandbox.is_healthy` (sandbox.py lines 274-276):
unconditionally `True`. -/
def is_healthy : Bool := true

/-- Helper for the outcome invariant on the Python subprocess driver. -/
theorem inv_py_sub (r : RunResult) :
    ((execute_python_subprocess r).outcome.executed_successfully = some true →
      (execute_python_subprocess r).outcome.error = none) ∧
    ((execute_python_subprocess r).outcome.executed_successfully = some false →
      (execute_python_subprocess r).outcome.error ≠ none) := by
  cases r with
  | completed rc out err => by_cases h : rc = 0 <;> simp [execute_python_subprocess, h]
  | timeout => simp [execute_python_subprocess]
  | fileNotFound m => simp [execute_python_subprocess]
  | raised m => simp [execute_python_subprocess]

/-- Helper for the outcome invariant on the JavaScript subprocess driver. -/
theorem inv_js_sub (r : RunResult) :
    ((execute_javascript_subprocess r).outcome.executed_successfully = some true →
      (execute_javascript_subprocess r).outcome.error = none) ∧
    ((execute_javascript_subprocess r).outcome.executed_successfully = some false →
      (execute_javascript_subprocess r).outcome.error ≠ none) := by
  cases r with
  | completed rc out err => by_cases h : rc = 0 <;> simp [execute_javascript_subprocess, h]
  | timeout => simp [execute_javascript_subprocess]
  | fileNotFound m => simp [execute_javascript_subprocess]
  | raised m => simp [execute_javascript_subprocess]

/-- Helper for the outcome invariant on the Python container driver. -/
theorem inv_py_dock (r : DockerRun) :
    ((execute_python_docker r).outcome.executed_successfully = some true →
      (execute_python_docker r).outcome.error = none) ∧
    ((execute_python_docker r).outcome.executed_successfully = some false →
      (execute_python_docker r).outcome.error ≠ none) := by
  cases r with
  | runFailed m => simp [execute_python_docker]
  | started w =>
    cases w with
    | finished sc logs => by_cases h : sc = 0 <;> simp [execute_python_docker, h]
    | timedOut => simp [execute_python_docker]
    | backendFailure m => simp [execute_python_docker]

/-- Helper for the outcome invariant on the JavaScript container driver. -/
theorem inv_js_dock (r : DockerRun) :
    ((execute_javascript_docker r).outcome.executed_successfully = some true →
      (execute_javascript_docker r).outcome.error = none) ∧
    ((execute_javascript_docker r).outcome.executed_successfully = some false →
      (execute_javascript_docker r).outcome.error ≠ none) := by
  cases r with
  | runFailed m => simp [execute_javascript_docker]
  | started w =>
    cases w with
    | finished sc logs => by_cases h : sc = 0 <;> simp [execute_javascript_docker, h]
    | timedOut => simp [execute_javascript_docker]
    | backendFailure m => simp [execute_javascript_docker]

/-- C1 counterexample: a call to `execute_code` in subprocess mode for
JavaScript whose runtime is missing creates the temp file and returns
without deleting it, so the file still exists when `execute` returns. -/
theorem C1_counterexample :
    (execute_code { env0 with jsSub := .fileNotFound "no node" } "javascript").fileCreated = true ∧
    (execute_code { env0 with jsSub := .fileNotFound "no node" } "javascript").fileDeleted = false := by
  decide

/-- C1 (amended): the temp file is deleted when the child process runs to
completion (any exit status) and on subprocess-mode timeout, but it is NOT
deleted when the runtime is missing, when an unexpected exception reaches
the outer handler, on container-mode timeout or mid-execution container
failure, or when starting the container fails. -/
theorem C1_amended_cleanup (rc sc : Int) (out err logs m : String) :
    (execute_python_subprocess (.completed rc out err)).fileDeleted = true ∧
    (execute_javascript_subprocess (.completed rc out err)).fileDeleted = true ∧
    (execute_python_subprocess .timeout).fileDeleted = true ∧
    (execute_javascript_subprocess .timeout).fileDeleted = true ∧
    (execute_python_docker (.started (.finished sc logs))).fileDeleted = true ∧
    (execute_javascript_docker (.started (.finished sc logs))).fileDeleted = true ∧
    (execute_python_subprocess (.fileNotFound m)).fileDeleted = false ∧
    (execute_javascript_subprocess (.fileNotFound m)).fileDeleted = false ∧
    (execute_python_subprocess (.raised m)).fileDeleted = false ∧
    (execute_javascript_subprocess (.raised m)).fileDeleted = false ∧
    (execute_python_docker (.started .timedOut)).fileDeleted = false ∧
    (execute_javascript_docker (.started .timedOut)).fileDeleted = false ∧
    (execute_python_docker (.started (.backendFailure m))).fileDeleted = false ∧
    (execute_javascript_docker (.started (.backendFailure m))).fileDeleted = false ∧
    (execute_python_docker (.runFailed m)).fileDeleted = false ∧
    (execute_javascript_docker (.runFailed m)).fileDeleted = false :=
  ⟨rfl, rfl, rfl, rfl, rfl, rfl, rfl, rfl, rfl, rfl, rfl, rfl, rfl, rfl, rfl, rfl⟩

/-- C2 counterexample: a JavaScript child exiting with status 1 and empty
stderr yields `succeeded = false` with `error` present but EMPTY, against
the claim that it is a non-empty text. -/
theorem C2_counterexample :
    (execute_code { env0 with jsSub := .completed 1 "" "" } "javascript").outcome.executed_successfully
      = some false ∧
    (execute_code { env0 with jsSub := .completed 1 "" "" } "javascript").outcome.error = some "" := by
  decide

/-- C2 (amended): in every outcome of `execute_code`, if the succeeded
flag is present and true then `error` is `None`, and if it is present and
false then the `error` field is present (not `None`) — but possibly the
empty string (JavaScript drivers with empty stderr/logs). -/
theorem C2_amended_invariant (env : SandboxEnv) (lang : String) :
    ((execute_code env lang).outcome.executed_successfully = some true →
      (execute_code env lang).outcome.error = none) ∧
    ((execute_code env lang).outcome.executed_successfully = some false →
      (execute_code env lang).outcome.error ≠ none) := by
  unfold execute_code
  split
  · cases he : env.escape with
    | some msg => simp
    | none =>
      by_cases hd : env.docker_available
      · simpa [hd] using inv_py_dock env.pyDock
      · simpa [hd] using inv_py_sub env.pySub
  · split
    · cases he : env.escape with
      | some msg => simp
      | none =>
        by_cases hd : env.docker_available
        · simpa [hd] using inv_js_dock env.jsDock
        · simpa [hd] using inv_js_sub env.jsSub
    · simp

/-- C2 witness: a successful Python run has the error field `None`. -/
theorem C2_witness : (execute_code env0 "python").outcome.error = none :=
  (C2_amended_invariant env0 "python").1 (by decide)

/-- C3 counterexample: for the unsupported language "ruby" the returned
dict has NO succeeded flag at all (the key is absent), so in particular it
is not the claimed `succeeded = false`. -/
theorem C3_counterexample :
    (execute_code env0 "ruby").outcome.executed_successfully = none ∧
    (execute_code env0 "ruby").outcome.executed_successfully ≠ some false ∧
    (execute_code env0 "ruby").outcome.error = some "Unsupported language" := by
  decide

/-- C3 (amended): for every language outside {python, javascript},
`execute_code` returns the two-key dict
`{"error": "Unsupported language", "output": ""}` — with the succeeded and
mode fields absent rather than set — creating no temp file and consulting
no driver (the result is independent of the whole environment). -/
theorem C3_amended_unsupported (env : SandboxEnv) (lang : String)
    (h1 : lang ≠ "python") (h2 : lang ≠ "javascript") :
    execute_code env lang =
      ⟨⟨"", some "Unsupported language", none, none, none⟩, false, false⟩ := by
  unfold execute_code
  rw [if_neg h1, if_neg h2]

/-- C3 witness: the amended statement evaluated at language "ruby". -/
theorem C3_witness :
    execute_code env0 "ruby" =
      ⟨⟨"", some "Unsupported language", none, none, none⟩, false, false⟩ :=
  C3_amended_unsupported env0 "ruby" (by decide) (by decide)

/-- C4 counterexample: on a nonzero Python exit with stderr two lines
"a", "b", the error field is the FULL stderr "a\nb", not its last
non-empty line "b". -/
theorem C4_counterexample :
    (execute_code { env0 with pySub := .completed 1 "out" "a\nb" } "python").outcome.error
      = some "a\nb" ∧
    lastNonBlankLine "a\nb" = some "b" ∧
    ("a\nb" : String) ≠ "b" := by
  decide

/-- C4 (amended): in subprocess mode on a nonzero exit, the Python driver
returns `succeeded=false`, `stdout` as captured, `error` equal to the FULL
captured stderr when it is nonempty (and "Unknown error" when stderr is
empty), and `errorLine` parsed from stderr; the JavaScript driver returns
the full (possibly empty) stderr as `error` and has no errorLine field. -/
theorem C4_amended_nonzero (rc : Int) (out err : String) (h : rc ≠ 0) :
    execute_python_subprocess (.completed rc out err) =
      ⟨⟨out, some (if err = "" then "Unknown error" else err), some false,
          some .subprocess, some (extract_error_line err)⟩, true, true⟩ ∧
    execute_javascript_subprocess (.completed rc out err) =
      ⟨⟨out, some err, some false, some .subprocess, none⟩, true, true⟩ := by
  constructor
  · show (⟨if rc = 0 then _ else _, true, true⟩ : DriverResult) = _
    rw [if_neg h]
    by_cases he : err = ""
    · subst he; simp [parse_python_error]
    · simp [he]
  · show (⟨⟨out, if rc ≠ 0 then some err else none, some (decide (rc = 0)),
        some .subprocess, none⟩, true, true⟩ : DriverResult) = _
    simp [h]

/-- C4 witness: the amended statement evaluated at exit status 1, stdout
"out", stderr "a\nb". -/
theorem C4_witness :
    execute_python_subprocess (.completed 1 "out" "a\nb") =
      ⟨⟨"out", some "a\nb", some false, some .subprocess, some none⟩, true, true⟩ ∧
    execute_javascript_subprocess (.completed 1 "out" "a\nb") =
      ⟨⟨"out", some "a\nb", some false, some .subprocess, none⟩, true, true⟩ := by
  have h := C4_amended_nonzero 1 "out" "a\nb" (by decide)
  exact ⟨by rw [h.1]; decide, by rw [h.2]⟩

/-- C5 counterexample: on a JavaScript subprocess timeout the message is
the plain "Execution timeout", not "Execution timeout (5s limit)". -/
theorem C5_counterexample :
    (execute_code { env0 with jsSub := .timeout } "javascript").outcome.error
      = some "Execution timeout" ∧
    (execute_code { env0 with jsSub := .timeout } "javascript").fileDeleted = true ∧
    ("Execution timeout" : String) ≠ "Execution timeout (5s limit)" := by
  decide

/-- C5 (amended): on subprocess-mode timeout both drivers delete the temp
file and return `succeeded=false`; the Python driver's message is
"Execution timeout (5s limit)" but the JavaScript driver's is the plain
"Execution timeout" without the limit suffix. -/
theorem C5_amended_timeout :
    execute_python_subprocess .timeout =
      ⟨⟨"", some "Execution timeout (5s limit)", some false, some .subprocess, none⟩,
        true, true⟩ ∧
    execute_javascript_subprocess .timeout =
      ⟨⟨"", some "Execution timeout", some false, some .subprocess, none⟩,
        true, true⟩ :=
  ⟨rfl, rfl⟩

/-- C6 counterexample: when the Python interpreter is missing, the error
is the generic "Execution error: <exception text>", which is not of the
form "<Runtime> not installed" (it does not even contain that phrase). -/
theorem C6_counterexample :
    (execute_code { env0 with pySub := .fileNotFound "No such file or directory: python" }
        "python").outcome.error
      = some "Execution error: No such file or directory: python" ∧
    containsPattern "Execution error: No such file or directory: python".data
      "not installed".data = false := by
  decide

/-- C6 (amended): only the JavaScript subprocess driver reports a missing
runtime as "<Runtime> not installed" ("Node.js not installed"); the Python
driver has no such handler and reports it via the generic
"Execution error: <exception text>" path (still with succeeded=false). -/
theorem C6_amended_runtime_missing (msg : String) :
    (execute_javascript_subprocess (.fileNotFound msg)).outcome =
      ⟨"", some "Node.js not installed", some false, some .subprocess, none⟩ ∧
    (execute_python_subprocess (.fileNotFound msg)).outcome =
      ⟨"", some ("Execution error: " ++ msg), some false, some .subprocess, none⟩ :=
  ⟨rfl, rfl⟩

/-- C7 counterexample: a container-backend failure after the container has
started yields exactly the same result as a timeout, with the generic
timeout message — not a backend-tagged error. -/
theorem C7_counterexample :
    execute_python_docker (.started (.backendFailure "daemon connection lost")) =
      execute_python_docker (.started .timedOut) ∧
    (execute_python_docker (.started (.backendFailure "daemon connection lost"))).outcome.error
      = some "Execution timeout (5s limit)" := by
  decide

/-- C7 (amended): mid-execution container failures are swallowed by the
bare `except:` and reported with the generic timeout message,
indistinguishable from a timeout; only a failure of the container-start
call itself is tagged "Docker error: <details>". -/
theorem C7_amended_backend (msg : String) :
    execute_python_docker (.started (.backendFailure msg)) =
      execute_python_docker (.started .timedOut) ∧
    execute_javascript_docker (.started (.backendFailure msg)) =
      execute_javascript_docker (.started .timedOut) ∧
    (execute_python_docker (.runFailed msg)).outcome.error = some ("Docker error: " ++ msg) ∧
    (execute_javascript_docker (.runFailed msg)).outcome.error = some ("Docker error: " ++ msg) :=
  ⟨rfl, rfl, rfl, rfl⟩

/-- C10: for every unsupported language, and whenever the dispatched
driver lets an exception escape to the top-level handler of
`execute_code`, the returned dict consists of only the error and output
keys — the succeeded, mode and line fields are absent entirely. -/
theorem C10_missing_fields (env : SandboxEnv) (lang msg : String) :
    (lang ≠ "python" → lang ≠ "javascript" →
      (execute_code env lang).outcome = ⟨"", some "Unsupported language", none, none, none⟩) ∧
    (env.escape = some msg → lang = "python" ∨ lang = "javascript" →
      (execute_code env lang).outcome = ⟨"", some msg, none, none, none⟩) := by
  constructor
  · intro h1 h2
    unfold execute_code
    rw [if_neg h1, if_neg h2]
  · intro he hl
    cases hl with
    | inl h => subst h; simp [execute_code, he]
    | inr h => subst h; simp [execute_code, he]

/-- C10 witness: an escaping exception with text "boom" during a Python
call yields the bare two-key dict. -/
theorem C10_witness :
    (execute_code { env0 with escape := some "boom" } "python").outcome =
      ⟨"", some "boom", none, none, none⟩ :=
  (C10_missing_fields { env0 with escape := some "boom" } "python" "boom").2 rfl (Or.inl rfl)

/-- The splitter never returns an empty list of lines (mirroring that
Python `split` always yields at least one piece). -/
theorem splitNl_ne_nil (t : List Char) : splitNl t ≠ [] := by
  induction t with
  | nil => simp [splitNl]
  | cons c cs ih =>
    by_cases hc : c = '\n'
    · simp [splitNl, hc]
    · cases h : splitNl cs with
      | nil => exact absurd h ih
      | cons l ls => simp [splitNl, hc, h]

/-- Last element of a cons is the last element of the nonempty tail. -/
theorem getLast?_cons_of_ne_nil {α : Type} (x : α) {L : List α} (h : L ≠ []) :
    (x :: L).getLast? = L.getLast? := by
  cases L with
  | nil => exact absurd rfl h
  | cons y ys => exact List.getLast?_cons_cons ..

/-- When the text ends in a non-newline character, the last line produced
by the splitter also ends in that character. -/
theorem splitNl_append_last (t : List Char) (c : Char) (hc : ¬ c = '\n') :
    ∃ l, (splitNl (t ++ [c])).getLast? = some (l ++ [c]) := by
  induction t with
  | nil =>
    refine ⟨[], ?_⟩
    simp [splitNl, hc]
  | cons a t ih =>
    obtain ⟨l, hl⟩ := ih
    by_cases ha : a = '\n'
    · refine ⟨l, ?_⟩
      have hsplit : splitNl ((a :: t) ++ [c]) = [] :: splitNl (t ++ [c]) := by
        simp [splitNl, ha]
      rw [hsplit, getLast?_cons_of_ne_nil _ (splitNl_ne_nil _), hl]
    · cases h : splitNl (t ++ [c]) with
      | nil => exact absurd h (splitNl_ne_nil _)
      | cons x xs =>
        have hsplit : splitNl ((a :: t) ++ [c]) = (a :: x) :: xs := by
          simp [splitNl, ha, h]
        cases xs with
        | nil =>
          rw [h] at hl
          simp only [List.getLast?_singleton, Option.some.injEq] at hl
          refine ⟨a :: l, ?_⟩
          rw [hsplit]
          simp [hl]
        | cons y ys =>
          rw [h, List.getLast?_cons_cons] at hl
          exact ⟨l, by rw [hsplit, List.getLast?_cons_cons]; exact hl⟩

/-- Filtering preserves the last element when it satisfies the filter. -/
theorem getLast?_filter {α : Type} (p : α → Bool) (L : List α) (x : α)
    (hx : L.getLast? = some x) (hp : p x = true) :
    (L.filter p).getLast? = some x := by
  rw [← List.head?_reverse] at hx ⊢
  rw [← List.filter_reverse]
  cases hr : L.reverse with
  | nil => rw [hr] at hx; exact Option.noConfusion hx
  | cons a as =>
    rw [hr] at hx
    simp only [List.head?_cons, Option.some.injEq] at hx
    subst hx
    simp [List.filter_cons, hp]

/-- The result of `dropWhile` is empty or starts with a failing element. -/
theorem dropWhile_shape (p : Char → Bool) (u : List Char) :
    u.dropWhile p = [] ∨ ∃ c v, u.dropWhile p = c :: v ∧ p c = false := by
  induction u with
  | nil => left; rfl
  | cons a u ih =>
    by_cases h : p a
    · simpa [List.dropWhile_cons, h] using ih
    · right
      exact ⟨a, u, by simp [List.dropWhile_cons, h], by simp [h]⟩

/-- A stripped text is empty or ends in a non-whitespace character. -/
theorem stripList_shape (t : List Char) :
    stripList t = [] ∨ ∃ u c, stripList t = u ++ [c] ∧ pyIsSpace c = false := by
  unfold stripList
  rcases dropWhile_shape pyIsSpace ((t.dropWhile pyIsSpace).reverse) with h | ⟨c, v, h, hpc⟩
  · left; rw [h]; rfl
  · right
    exact ⟨v.reverse, c, by rw [h]; simp, hpc⟩

/-- C8 counterexample: on the all-whitespace input " " the helper returns
the empty string, which is neither "Unknown error" (the input is not
empty) nor a non-blank line of the input (the input has none). -/
theorem C8_counterexample :
    parse_python_error " " = "" ∧
    lastNonBlankLine " " = none ∧
    (" " : String) ≠ "" ∧
    ("" : String) ≠ "Unknown error" := by
  decide

/-- C8 (amended): `_parse_python_error` returns "Unknown error" on the
empty input, the empty string on a non-empty but all-whitespace input,
and otherwise the last non-blank line of the whitespace-STRIPPED input
(so surrounding whitespace of the reported line may be removed). -/
theorem C8_amended_last_line (s : String) :
    (s = "" → parse_python_error s = "Unknown error") ∧
    (s ≠ "" → stripList s.data = [] → parse_python_error s = "") ∧
    (stripList s.data ≠ [] →
      lastNonBlankLine (String.mk (stripList s.data)) = some (parse_python_error s)) := by
  refine ⟨?_, ?_, ?_⟩
  · intro h
    rw [h]
    decide
  · intro hs h
    unfold parse_python_error
    rw [if_neg hs, h]
    rfl
  · intro h
    have hs : s ≠ "" := by
      intro contra
      apply h
      rw [contra]
      rfl
    rcases stripList_shape s.data with h0 | ⟨u, c, hu, hc⟩
    · exact absurd h0 h
    · have hcn : ¬ c = '\n' := by
        intro e
        rw [e] at hc
        simp [pyIsSpace] at hc
      obtain ⟨l, hl⟩ := splitNl_append_last u c hcn
      have hp : parse_python_error s = String.mk (l ++ [c]) := by
        unfold parse_python_error
        rw [if_neg hs, hu, hl]
      have hq : (fun w => !isBlank w) (l ++ [c]) = true := by
        simp [isBlank, List.all_append, hc]
      unfold lastNonBlankLine
      have hdata : (String.mk (stripList s.data)).data = stripList s.data := rfl
      rw [hp, hdata, hu, getLast?_filter _ _ _ hl hq]
      rfl

/-- C8 witness: the amended statement evaluated on the input "a\nb ",
whose stripped form is "a\nb" with last non-blank line "b". -/
theorem C8_witness :
    lastNonBlankLine (String.mk (stripList ("a\nb " : String).data)) =
      some (parse_python_error "a\nb ") :=
  (C8_amended_last_line "a\nb ").2.2 (by decide)

/-- The scan returns `none` exactly when the pattern matches at no
position of the text. -/
theorem searchLine_none_iff (t : List Char) :
    searchLine t = none ↔ ∀ i, matchLineAt (t.drop i) = none := by
  induction t with
  | nil =>
    constructor
    · intro _ i
      rw [List.drop_nil]
      rfl
    · intro _
      rfl
  | cons c cs ih =>
    cases h : matchLineAt (c :: cs) with
    | some m =>
      simp only [searchLine, h]
      constructor
      · intro hs
        exact Option.noConfusion hs
      · intro hall
        have h0 := hall 0
        simp only [List.drop_zero] at h0
        rw [h] at h0
        exact Option.noConfusion h0
    | none =>
      simp only [searchLine, h]
      rw [ih]
      constructor
      · intro hall i
        cases i with
        | zero => simpa using h
        | succ j => simpa using hall j
      · intro hall j
        simpa using hall (j + 1)

/-- The scan returns `some n` exactly when the pattern matches with value
`n` at some position before which it matches nowhere (leftmost match). -/
theorem searchLine_some_iff (t : List Char) (n : Nat) :
    searchLine t = some n ↔
      ∃ i, matchLineAt (t.drop i) = some n ∧
        ∀ j, j < i → matchLineAt (t.drop j) = none := by
  induction t with
  | nil =>
    constructor
    · intro hs
      exact Option.noConfusion hs
    · rintro ⟨i, hi, _⟩
      rw [List.drop_nil] at hi
      exact Option.noConfusion hi
  | cons c cs ih =>
    cases h : matchLineAt (c :: cs) with
    | some m =>
      simp only [searchLine, h]
      constructor
      · intro hs
        refine ⟨0, ?_, ?_⟩
        · simpa using hs ▸ h
        · intro j hj
          exact absurd hj (Nat.not_lt_zero j)
      · rintro ⟨i, hi, hall⟩
        cases i with
        | zero =>
          simp only [List.drop_zero] at hi
          rw [h] at hi
          exact hi
        | succ j =>
          have h0 := hall 0 (Nat.succ_pos j)
          simp only [List.drop_zero] at h0
          rw [h] at h0
          exact Option.noConfusion h0
    | none =>
      simp only [searchLine, h]
      rw [ih]
      constructor
      · rintro ⟨i, hi, hall⟩
        refine ⟨i + 1, by simpa using hi, ?_⟩
        intro j hj
        cases j with
        | zero => simpa using h
        | succ k =>
          have hk := hall k (Nat.lt_of_succ_lt_succ hj)
          simpa using hk
      · rintro ⟨i, hi, hall⟩
        cases i with
        | zero =>
          simp only [List.drop_zero] at hi
          rw [h] at hi
          exact Option.noConfusion hi
        | succ k =>
          refine ⟨k, by simpa using hi, ?_⟩
          intro j hj
          have hk := hall (j + 1) (Nat.succ_lt_succ hj)
          simpa using hk

/-- C9: `_extract_error_line` returns `None` exactly when the text (empty
texts included) has no occurrence of the case-sensitive pattern
"line <digits>", and returns `some n` exactly when the FIRST (leftmost)
occurrence of that pattern carries the integer value `n`. -/
theorem C9_first_match (s : String) :
    (extract_error_line s = none ↔ ∀ i, matchLineAt (s.data.drop i) = none) ∧
    (∀ n, extract_error_line s = some n ↔
      ∃ i, matchLineAt (s.data.drop i) = some n ∧
        ∀ j, j < i → matchLineAt (s.data.drop j) = none) := by
  constructor
  · by_cases hs : s = ""
    · subst hs
      constructor
      · intro _ i
        have hd : ("" : String).data = [] := rfl
        rw [hd, List.drop_nil]
        rfl
      · intro _
        rfl
    · unfold extract_error_line
      rw [if_neg hs]
      exact searchLine_none_iff s.data
  · intro n
    by_cases hs : s = ""
    · subst hs
      constructor
      · intro hg
        exact Option.noConfusion hg
      · rintro ⟨i, hi, _⟩
        have hd : ("" : String).data = [] := rfl
        rw [hd, List.drop_nil] at hi
        exact Option.noConfusion hi
    · unfold extract_error_line
      rw [if_neg hs]
      exact searchLine_some_iff s.data n

/-- C9 witness: on "x line 42" the first match is at position 2 with
value 42, and the scan indeed returns 42. -/
theorem C9_witness : extract_error_line "x line 42" = some 42 :=
  ((C9_first_match "x line 42").2 42).mpr ⟨2, by decide, by decide⟩
